import Mathlib

/-!
Verification of the RAG chatbot backend (FastAPI + Azure OpenAI + Weaviate).

The development shallowly embeds the repository's Python orchestration code:

* `services/weaviate_client.py` — `add_documents`, `similarity_search`;
* `services/azure_openai_client.py` — `create_embeddings`, `create_embedding`,
  `create_rag_prompt`;
* `services/document_service.py` — `process_text_content`,
  `ingest_text_content`, `load_document`, `ingest_document`;
* `app/main.py` — the `/ingest/text`, `/ingest/file` and `/chat` handlers.

External services (the Azure embedding API, the Weaviate store, the langchain
text splitter and document loaders) are parameters of the model (`Env`); the
store is modelled with explicit state threading and a deterministic fresh-id
supply standing for uuid generation.  Calls that leave the process are
recorded in an explicit effect trace so that claims of the form "no call
reaches gateway X" are statable.  Python floats are modelled as rationals;
Python dict keys that may be absent are modelled with `Option`.
-/

namespace RAG

/-- A Python property value as stored in a Weaviate document dict
(string-valued or integer-valued properties). -/
inductive PropValue
  | s (v : String)
  | n (v : Nat)
deriving DecidableEq, Repr

/-- A Weaviate document: the Python dict passed to `add_documents`,
modelled as an association list of properties. -/
abbrev WDoc := List (String × PropValue)

/-- A record persisted in the (modelled) Weaviate collection. -/
structure StoredRecord where
  properties : WDoc
  vector : List ℚ
deriving DecidableEq, Repr

/-- The modelled state of the external Weaviate collection: a fresh-id
counter standing for uuid generation, and the list of stored records in
insertion order. -/
structure StoreState where
  nextId : Nat
  records : List StoredRecord
deriving DecidableEq, Repr

/-- `collection.data.insert(properties=..., vector=...)` followed by `str(uuid)`:
persists one record and returns a fresh identifier.  The external uuid
generator is modelled as a deterministic counter. -/
def wInsert (properties : WDoc) (vector : List ℚ) (s : StoreState) :
    String × StoreState :=
  (toString s.nextId,
   { nextId := s.nextId + 1, records := s.records ++ [⟨properties, vector⟩] })

/-- The reserved-field filter in `WeaviateClient.add_documents`:
`{k: v for k, v in doc.items() if k not in ["id", "vector"]}`. -/
def filterReserved (doc : WDoc) : WDoc :=
  doc.filter fun kv => !(kv.1 == "id" || kv.1 == "vector")

/-- The `for doc, vector in zip(documents, vectors)` loop body of
`WeaviateClient.add_documents`, with the accumulated uuid list. -/
def addLoop : List (WDoc × List ℚ) → List String → StoreState →
    List String × StoreState
  | [], uuids, s => (uuids, s)
  | (doc, vector) :: rest, uuids, s =>
      let properties := filterReserved doc
      let r := wInsert properties vector s
      addLoop rest (uuids ++ [r.1]) r.2

/-- `WeaviateClient.add_documents(documents, vectors)`: iterates over
`zip(documents, vectors)`, inserting each pair individually and collecting
the stringified uuids. -/
def add_documents (documents : List WDoc) (vectors : List (List ℚ))
    (s : StoreState) : List String × StoreState :=
  addLoop (documents.zip vectors) [] s

lemma addLoop_spec (pairs : List (WDoc × List ℚ)) :
    ∀ (uuids : List String) (s : StoreState),
      (addLoop pairs uuids s).1 =
        uuids ++ (List.range pairs.length).map (fun i => toString (s.nextId + i)) ∧
      (addLoop pairs uuids s).2.nextId = s.nextId + pairs.length ∧
      (addLoop pairs uuids s).2.records =
        s.records ++ pairs.map (fun dv => StoredRecord.mk (filterReserved dv.1) dv.2) := by
  induction pairs with
  | nil => intro uuids s; simp [addLoop]
  | cons dv rest ih =>
      intro uuids s
      obtain ⟨d, v⟩ := dv
      have h := ih (uuids ++ [toString s.nextId])
        ⟨s.nextId + 1, s.records ++ [⟨filterReserved d, v⟩]⟩
      have hn : (⟨s.nextId + 1, s.records ++ [⟨filterReserved d, v⟩]⟩ :
          StoreState).nextId = s.nextId + 1 := rfl
      have hr : (⟨s.nextId + 1, s.records ++ [⟨filterReserved d, v⟩]⟩ :
          StoreState).records = s.records ++ [⟨filterReserved d, v⟩] := rfl
      refine ⟨?_, ?_, ?_⟩
      · show (addLoop rest (uuids ++ [toString s.nextId])
          ⟨s.nextId + 1, s.records ++ [⟨filterReserved d, v⟩]⟩).1 = _
        rw [h.1]
        simp only [hn, List.length_cons, List.range_succ_eq_map, List.map_cons,
          List.map_map, List.append_assoc, List.cons_append, List.nil_append,
          Nat.add_zero]
        congr 1
        congr 1
        apply List.map_congr_left
        intro i _
        simp only [Function.comp]
        congr 1
        omega
      · show (addLoop rest (uuids ++ [toString s.nextId])
          ⟨s.nextId + 1, s.records ++ [⟨filterReserved d, v⟩]⟩).2.nextId = _
        rw [h.2.1, hn]
        simp only [List.length_cons]
        omega
      · show (addLoop rest (uuids ++ [toString s.nextId])
          ⟨s.nextId + 1, s.records ++ [⟨filterReserved d, v⟩]⟩).2.records = _
        rw [h.2.2, hr]
        simp

/-- `WeaviateClient.similarity_search`: the metadata dict of one retrieval
result. -/
structure RMeta where
  filename : String
  chunk_index : Nat
  file_type : String
  upload_date : String
  distance : Option ℚ
deriving DecidableEq, Repr

/-- A retrieval result as built by `WeaviateClient.similarity_search`:
`content`, `metadata`, and a derived `score`. -/
structure RetrievalResult where
  content : String
  metadata : RMeta
  score : ℚ
deriving DecidableEq, Repr

/-- The distance metadata attached to one object of the Weaviate
`near_vector` response (`item.metadata`, possibly `None`). -/
structure WMeta where
  distance : Option ℚ
deriving DecidableEq, Repr

/-- One object of the Weaviate `near_vector` query response.  Property
lookups in the source use `item.properties.get(key, default)`, so each
property is an `Option`. -/
structure WObj where
  content : Option String
  filename : Option String
  chunk_index : Option Nat
  file_type : Option String
  upload_date : Option String
  metadata : Option WMeta
deriving DecidableEq, Repr

/-- The result-construction loop of `WeaviateClient.similarity_search`,
applied to the objects of the store's query response.  The score line of the
source is `1 - (item.metadata.distance if item.metadata and
item.metadata.distance else 0)`: Python truthiness makes a missing metadata
object, a missing distance, and a zero distance all fall back to `0`. -/
def similarity_search (objects : List WObj) : List RetrievalResult :=
  objects.map fun item =>
    { content := item.content.getD ""
      metadata :=
        { filename := item.filename.getD ""
          chunk_index := item.chunk_index.getD 0
          file_type := item.file_type.getD ""
          upload_date := item.upload_date.getD ""
          distance :=
            match item.metadata with
            | some m => m.distance
            | none => none }
      score := 1 -
        (match item.metadata with
         | some m =>
             (match m.distance with
              | some d => if d = 0 then 0 else d
              | none => 0)
         | none => 0) }

/-- One item of the Azure embeddings API response (`response.data`). -/
structure EmbedItem where
  embedding : List ℚ
deriving DecidableEq, Repr

/-- A langchain `Document`: page content plus the source label used by
the repository. -/
structure Doc where
  page_content : String
  source : String
deriving DecidableEq, Repr

/-- The loader selected by `DocumentService.load_document`. -/
inductive LoaderKind
  | pdf
  | markdown
  | text
deriving DecidableEq, Repr

/-- The external dependencies of the pipelines, as consumed by the
repository: the langchain text splitter, the Azure embeddings API (the raw
`response.data`, or an upstream exception message), the langchain document
loaders, the file-size stat, the wall clock reading used for `upload_date`,
the temporary-file path, and the Weaviate store state. -/
structure Env where
  splitDocs : List Doc → List Doc
  embedApi : List String → Except String (List EmbedItem)
  loadApi : LoaderKind → String → Except String (List Doc)
  getFileSize : String → Nat
  now : String
  tempPath : String
  store : StoreState

/-- `AzureOpenAIClient.create_embeddings(texts)`: one upstream call, then
`[item.embedding for item in response.data]`. -/
def create_embeddings (env : Env) (texts : List String) :
    Except String (List (List ℚ)) :=
  match env.embedApi texts with
  | .error e => .error e
  | .ok data => .ok (data.map (fun item => item.embedding))

/-- `AzureOpenAIClient.create_embedding(text)`: the source line is
`return self.create_embeddings([text])[0]`; indexing an empty Python list
raises `IndexError`. -/
def create_embedding (env : Env) (text : String) : Except String (List ℚ) :=
  match create_embeddings env [text] with
  | .error e => .error e
  | .ok [] => .error "IndexError: list index out of range"
  | .ok (e :: _) => .ok e

/-- A role-tagged chat message dict (`{"role": ..., "content": ...}`). -/
structure Msg where
  role : String
  content : String
deriving DecidableEq, Repr

/-- One entry of the `"\n\n".join(...)` comprehension in
`AzureOpenAIClient.create_rag_prompt`:
`f"Document: {doc[\x27metadata\x27][\x27filename\x27]}\nContent: {doc[\x27content\x27]}"`. -/
def docBlock (doc : RetrievalResult) : String :=
  "Document: " ++ doc.metadata.filename ++ "\nContent: " ++ doc.content

/-- The `context_text` local of `create_rag_prompt`: the per-document blocks
joined with a blank line. -/
def context_text (context_docs : List RetrievalResult) : String :=
  String.intercalate "\n\n" (context_docs.map docBlock)

/-- The fixed `system_prompt` string of `create_rag_prompt` (a Python
triple-quoted literal, including its trailing spaces and indentation). -/
def system_prompt : String :=
  "You are a helpful AI assistant that answers questions based on the provided context. \n        Use the context documents to answer the user\x27s question. If the answer cannot be found in the context, \n        say so clearly. Always cite the source documents when possible."

/-- The `user_prompt` f-string of `create_rag_prompt`. -/
def user_prompt (query : String) (context_docs : List RetrievalResult) : String :=
  "Context Documents:\n" ++ context_text context_docs ++
    "\n\nUser Question: " ++ query ++
    "\n\nPlease provide a helpful answer based on the context above."

/-- `AzureOpenAIClient.create_rag_prompt(query, context_docs)`: one system
message and one user message. -/
def create_rag_prompt (query : String) (context_docs : List RetrievalResult) :
    List Msg :=
  [⟨"system", system_prompt⟩, ⟨"user", user_prompt query context_docs⟩]

/-- Spec-side reading of the context assembly: the context block of each
retrieval result, in order, with a blank line between consecutive blocks. -/
def contextBlocks : List RetrievalResult → String
  | [] => ""
  | [doc] => docBlock doc
  | doc :: rest => docBlock doc ++ "\n\n" ++ contextBlocks rest

lemma intercalate_go_append (s : String) :
    ∀ (l : List String) (x y : String),
      String.intercalate.go (x ++ y) s l = x ++ String.intercalate.go y s l := by
  intro l
  induction l with
  | nil => intro x y; rfl
  | cons a as ih =>
      intro x y
      show String.intercalate.go (x ++ y ++ s ++ a) s as = _
      have : x ++ y ++ s ++ a = x ++ (y ++ s ++ a) := by
        simp [String.append_assoc]
      rw [this, ih]
      rfl

lemma intercalate_cons_cons (s a b : String) (l : List String) :
    String.intercalate s (a :: b :: l) = a ++ s ++ String.intercalate s (b :: l) := by
  show String.intercalate.go a s (b :: l) = a ++ s ++ String.intercalate.go b s l
  show String.intercalate.go (a ++ s ++ b) s l = _
  have : a ++ s ++ b = (a ++ s) ++ b := by simp [String.append_assoc]
  rw [this, intercalate_go_append]

lemma context_text_eq_blocks (docs : List RetrievalResult) :
    context_text docs = contextBlocks docs := by
  induction docs with
  | nil => rfl
  | cons d rest ih =>
      cases rest with
      | nil => rfl
      | cons e tail =>
          show String.intercalate "\n\n" (docBlock d :: docBlock e :: tail.map docBlock) = _
          rw [intercalate_cons_cons]
          show _ = docBlock d ++ "\n\n" ++ contextBlocks (e :: tail)
          rw [← ih]
          rfl

/-- A `ChatMessage` of `models/schemas.py`: role, content, optional
timestamp. -/
structure ChatMessage where
  role : String
  content : String
  timestamp : Option String
deriving DecidableEq, Repr

/-- The message-assembly part of the `/chat` handler (`app/main.py`,
`chat_stream`): build the RAG prompt, then, when a non-empty conversation
history is supplied, splice `history[-10:]` between `messages[0]` and
`messages[1]`. -/
def chat_assemble (query : String) (relevant_docs : List RetrievalResult)
    (history : List ChatMessage) : List Msg :=
  let messages := create_rag_prompt query relevant_docs
  if history.isEmpty then messages
  else
    let history_messages :=
      (history.drop (history.length - 10)).map fun m => Msg.mk m.role m.content
    [messages.getD 0 ⟨"", ""⟩] ++ history_messages ++ [messages.getD 1 ⟨"", ""⟩]

/-- One server-sent event of the `/chat` streaming response body
(`generate_response` in `app/main.py`), abstracted from its
`data: {...}\n\n` serialization. -/
inductive StreamEvent
  | sources (filenames : List String)
  | content (fragment : String)
  | done
  | error (msg : String)
deriving DecidableEq, Repr

/-- The behaviour of the upstream `chat_completion_stream` generator: it
yields finitely many fragments and then either finishes cleanly or raises an
exception with a message. -/
inductive StreamBehavior
  | success (fragments : List String)
  | failure (fragments : List String) (msg : String)
deriving DecidableEq, Repr

/-- The `generate_response` async generator of the `/chat` handler: one
sources event built from the raw per-chunk filename list, then one content
event per upstream fragment; on clean upstream exhaustion a terminal
`[DONE]` sentinel, and on an exception a single error event (the `except`
clause) after which the generator stops. -/
def generate_response (relevant_docs : List RetrievalResult)
    (stream : StreamBehavior) : List StreamEvent :=
  let sourcesEvent :=
    StreamEvent.sources (relevant_docs.map fun doc => doc.metadata.filename)
  match stream with
  | .success fragments =>
      sourcesEvent :: (fragments.map StreamEvent.content ++ [StreamEvent.done])
  | .failure fragments msg =>
      sourcesEvent :: (fragments.map StreamEvent.content ++ [StreamEvent.error msg])

/-- Whether a stream event is an error event. -/
def isErrorEvent : StreamEvent → Bool
  | .error _ => true
  | _ => false

/-- Whether a stream event is a content event. -/
def isContentEvent : StreamEvent → Bool
  | .content _ => true
  | _ => false

/-- An external call made while handling a request: reading the uploaded
bytes, writing the temporary file, invoking a document loader, calling the
Azure embeddings API, or inserting into the Weaviate store. -/
inductive Effect
  | fileReadE (size : Nat)
  | tempWriteE
  | loadE (kind : LoaderKind)
  | embedE (texts : List String)
  | insertE (count : Nat)
deriving DecidableEq, Repr

/-- The result dict returned by the `DocumentService` ingestion methods.
`file_size` and `document_ids` are keys that some branches omit, hence
`Option`. -/
structure IngestResult where
  success : Bool
  message : String
  filename : String
  chunks_created : Nat
  file_size : Option Nat
  document_ids : Option (List String)
deriving DecidableEq, Repr

/-- `DocumentService.process_text_content`: wrap the raw text as one
in-memory document and apply the text splitter. -/
def process_text_content (env : Env) (text_content : String)
    (filename : String) : List Doc :=
  env.splitDocs [⟨text_content, filename⟩]

/-- The Weaviate document dict built by the ingestion methods for chunk
number `i`. -/
def mkWeaviateDoc (content filename : String) (i : Nat)
    (file_type now : String) : WDoc :=
  [("content", PropValue.s content), ("filename", PropValue.s filename),
   ("chunk_index", PropValue.n i), ("file_type", PropValue.s file_type),
   ("upload_date", PropValue.s now)]

/-- `DocumentService.ingest_text_content`: chunk, embed, store; any raised
exception is caught and converted into a failure dict with
`chunks_created = 0`.  The second component is the trace of external calls
made. -/
def ingest_text_content (env : Env) (text_content : String)
    (filename : String) : IngestResult × List Effect :=
  let chunks := process_text_content env text_content filename
  let chunk_texts := chunks.map fun c => c.page_content
  match create_embeddings env chunk_texts with
  | .error e =>
      ({ success := false, message := "Failed to ingest text content: " ++ e,
         filename := filename, chunks_created := 0, file_size := none,
         document_ids := none },
       [Effect.embedE chunk_texts])
  | .ok embeddings =>
      let weaviate_docs := ((chunks.zip embeddings).enum).map fun p =>
        mkWeaviateDoc p.2.1.page_content filename p.1 ".txt" env.now
      let r := add_documents weaviate_docs embeddings env.store
      ({ success := true, message := "Successfully ingested text content",
         filename := filename, chunks_created := chunks.length,
         file_size := none, document_ids := some r.1 },
       [Effect.embedE chunk_texts, Effect.insertE weaviate_docs.length])

/-- Python `str.lower()` (ASCII case folding, applied character by
character). -/
def pyLower (s : String) : String :=
  String.mk (s.data.map Char.toLower)

/-- The extension part of Python `os.path.splitext` for a bare filename
(no directory separators): the suffix starting at the last dot, provided
some character before that dot is not itself a dot (so dotfiles such as
`.bashrc` have no extension). -/
def splitextExt (p : String) : String :=
  let cs := p.data
  match ((cs.enum.filter fun ic => ic.2 = '.').map fun ic => ic.1).getLast? with
  | none => ""
  | some i => if (cs.take i).any (fun c => c ≠ '.') then String.mk (cs.drop i) else ""

/-- `settings.allowed_file_types` from `app/config.py`. -/
def allowed_file_types : List String := [".pdf", ".txt", ".md", ".docx"]

/-- `settings.max_file_size` from `app/config.py` (10 MB). -/
def max_file_size : Nat := 10 * 1024 * 1024

/-- `DocumentService.load_document`: select a langchain loader by file type
and run it; an unsupported type raises `ValueError` before any loader is
constructed, so no load call is traced in that branch. -/
def load_document (env : Env) (file_path : String) (file_type : String) :
    Except String (List Doc) × List Effect :=
  if pyLower file_type = ".pdf" then
    (env.loadApi LoaderKind.pdf file_path, [Effect.loadE LoaderKind.pdf])
  else if pyLower file_type = ".md" then
    (env.loadApi LoaderKind.markdown file_path, [Effect.loadE LoaderKind.markdown])
  else if pyLower file_type = ".txt" ∨ pyLower file_type = ".text" then
    (env.loadApi LoaderKind.text file_path, [Effect.loadE LoaderKind.text])
  else
    (Except.error ("Unsupported file type: " ++ file_type), [])

/-- `DocumentService.ingest_document`: load, split, embed, store; any
raised exception is caught and converted into a failure dict.  The second
component is the trace of external calls made. -/
def ingest_document (env : Env) (file_path : String) (filename : String) :
    IngestResult × List Effect :=
  let file_type := splitextExt filename
  let file_size := env.getFileSize file_path
  match load_document env file_path file_type with
  | (.error e, tr) =>
      ({ success := false, message := "Failed to ingest document: " ++ e,
         filename := filename, chunks_created := 0, file_size := none,
         document_ids := none }, tr)
  | (.ok documents, tr) =>
      let chunks := env.splitDocs documents
      let chunk_texts := chunks.map fun c => c.page_content
      match create_embeddings env chunk_texts with
      | .error e =>
          ({ success := false, message := "Failed to ingest document: " ++ e,
             filename := filename, chunks_created := 0, file_size := none,
             document_ids := none },
           tr ++ [Effect.embedE chunk_texts])
      | .ok embeddings =>
          let weaviate_docs := ((chunks.zip embeddings).enum).map fun p =>
            mkWeaviateDoc p.2.1.page_content filename p.1 file_type env.now
          let r := add_documents weaviate_docs embeddings env.store
          ({ success := true, message := "Successfully ingested " ++ filename,
             filename := filename, chunks_created := chunks.length,
             file_size := some file_size, document_ids := some r.1 },
           tr ++ [Effect.embedE chunk_texts, Effect.insertE weaviate_docs.length])

/-- The `IngestRequest` schema: optional text content and filename. -/
structure IngestRequest where
  text_content : Option String
  filename : Option String
deriving DecidableEq, Repr

/-- The `IngestResponse` schema returned by the ingestion endpoints. -/
structure IngestResponse where
  success : Bool
  message : String
  document_id : Option String
  chunks_created : Nat
deriving DecidableEq, Repr

/-- The outcome of a route handler: a successful response, or an
`HTTPException` with a status and detail. -/
inductive RouteOutcome
  | ok (resp : IngestResponse)
  | httpErr (status : Nat) (detail : String)
deriving DecidableEq, Repr

/-- The HTTP status of a route outcome. -/
def statusOf : RouteOutcome → Nat
  | .ok _ => 200
  | .httpErr status _ => status

/-- Python truthiness of the optional `text_content` string: `None` and the
empty string are falsy. -/
def strFalsy : Option String → Bool
  | none => true
  | some s => s == ""

/-- The `document_id` field of the response:
`result.get("document_ids", [None])[0] if result.get("document_ids") else None`. -/
def firstDocumentId : Option (List String) → Option String
  | some (x :: _) => some x
  | _ => none

/-- The `/ingest/text` handler (`ingest_text` in `app/main.py`): reject
falsy text content with a 400, default the filename, run
`ingest_text_content`, and convert a failure dict into a 500. -/
def ingest_text_route (env : Env) (req : IngestRequest) :
    RouteOutcome × List Effect :=
  if strFalsy req.text_content then
    (.httpErr 400 "Text content is required", [])
  else
    let filename :=
      match req.filename with
      | some f => if f == "" then "text_input" else f
      | none => "text_input"
    let r := ingest_text_content env (req.text_content.getD "") filename
    if r.1.success then
      (.ok { success := true, message := r.1.message,
             document_id := firstDocumentId r.1.document_ids,
             chunks_created := r.1.chunks_created }, r.2)
    else
      (.httpErr 500 r.1.message, r.2)

/-- An uploaded file: its client-supplied filename and its bytes (modelled
as a string; only the length is inspected by the handler). -/
structure UploadedFile where
  filename : String
  content : String
deriving DecidableEq, Repr

/-- The `/ingest/file` handler (`ingest_file` in `app/main.py`): check the
extension against the allow-list, read the upload, check the size, write a
temporary file, run `ingest_document`, and convert a failure dict into a
500. -/
def ingest_file_route (env : Env) (file : UploadedFile) :
    RouteOutcome × List Effect :=
  let file_extension := pyLower (splitextExt file.filename)
  if file_extension ∉ allowed_file_types then
    (.httpErr 400 ("File type " ++ file_extension ++ " not supported. Allowed types: [.pdf, .txt, .md, .docx]"), [])
  else
    let readTrace := [Effect.fileReadE file.content.length]
    if file.content.length > max_file_size then
      (.httpErr 400 ("File size exceeds maximum allowed size of " ++
         toString max_file_size ++ " bytes"), readTrace)
    else
      let tr0 := readTrace ++ [Effect.tempWriteE]
      let r := ingest_document env env.tempPath file.filename
      if r.1.success then
        (.ok { success := true, message := r.1.message,
               document_id := firstDocumentId r.1.document_ids,
               chunks_created := r.1.chunks_created }, tr0 ++ r.2)
      else
        (.httpErr 500 r.1.message, tr0 ++ r.2)

/-- An environment whose upstream embedding and loading calls fail, with an
identity text splitter and an empty store. -/
def env0 : Env :=
  { splitDocs := fun ds => ds
    embedApi := fun _ => .error "upstream unavailable"
    loadApi := fun _ _ => .error "load failed"
    getFileSize := fun _ => 0
    now := "2024-01-01T00:00:00Z"
    tempPath := "/tmp/upload"
    store := ⟨0, []⟩ }

/-- An environment whose upstream calls all succeed: the embedding API
returns one one-dimensional vector per input text. -/
def envOk : Env :=
  { splitDocs := fun ds => ds
    embedApi := fun ts => .ok (ts.map fun _ => ⟨[1]⟩)
    loadApi := fun _ _ => .ok [⟨"doc body", "src"⟩]
    getFileSize := fun _ => 42
    now := "2024-01-01T00:00:00Z"
    tempPath := "/tmp/upload"
    store := ⟨0, []⟩ }

/-- Claim C8: calling `add_documents` with a document list and a vector
list of equal length N inserts exactly N records and returns exactly N
generated identifiers, one per input pair, in input order (the i-th
identifier is the one generated by the i-th insertion, and the records are
appended in zip order). -/
theorem add_documents_count_order (documents : List WDoc)
    (vectors : List (List ℚ)) (s : StoreState)
    (h : documents.length = vectors.length) :
    (add_documents documents vectors s).1.length = documents.length ∧
    (add_documents documents vectors s).1 =
      (List.range documents.length).map (fun i => toString (s.nextId + i)) ∧
    (add_documents documents vectors s).2.records =
      s.records ++ (documents.zip vectors).map
        (fun dv => StoredRecord.mk (filterReserved dv.1) dv.2) := by
  have hs := addLoop_spec (documents.zip vectors) [] s
  have hlen : (documents.zip vectors).length = documents.length := by
    rw [List.length_zip]; omega
  refine ⟨?_, ?_, hs.2.2⟩
  · show (addLoop (documents.zip vectors) [] s).1.length = _
    rw [hs.1, hlen]; simp
  · show (addLoop (documents.zip vectors) [] s).1 = _
    rw [hs.1, hlen]; simp

/-- Witness for C8 at two concrete (document, vector) pairs. -/
theorem add_documents_count_order_witness :
    ([[("content", RAG.PropValue.s "a")], [("content", RAG.PropValue.s "b")]] :
        List WDoc).length = ([[1], [2]] : List (List ℚ)).length ∧
    ((add_documents [[("content", PropValue.s "a")], [("content", PropValue.s "b")]]
        [[1], [2]] ⟨0, []⟩).1.length = 2 ∧
     (add_documents [[("content", PropValue.s "a")], [("content", PropValue.s "b")]]
        [[1], [2]] ⟨0, []⟩).1 =
       (List.range 2).map (fun i => toString ((0 : Nat) + i)) ∧
     (add_documents [[("content", PropValue.s "a")], [("content", PropValue.s "b")]]
        [[1], [2]] ⟨0, []⟩).2.records =
       [] ++ (([[("content", PropValue.s "a")], [("content", PropValue.s "b")]] :
          List WDoc).zip [[1], [2]]).map
         (fun dv => StoredRecord.mk (filterReserved dv.1) dv.2)) :=
  ⟨by decide,
   add_documents_count_order
     [[("content", PropValue.s "a")], [("content", PropValue.s "b")]]
     [[1], [2]] ⟨0, []⟩ (by decide)⟩

/-- Claim C10: `add_documents` performs no length check: with lists of
unequal length it silently truncates to the shorter one, inserting exactly
`min` many records and returning that many identifiers. -/
theorem add_documents_truncation (documents : List WDoc)
    (vectors : List (List ℚ)) (s : StoreState) :
    (add_documents documents vectors s).1.length =
      min documents.length vectors.length ∧
    (add_documents documents vectors s).2.records.length =
      s.records.length + min documents.length vectors.length := by
  have hs := addLoop_spec (documents.zip vectors) [] s
  constructor
  · show (addLoop (documents.zip vectors) [] s).1.length = _
    rw [hs.1]; simp [List.length_zip]
  · show (addLoop (documents.zip vectors) [] s).2.records.length = _
    rw [hs.2.2]; simp [List.length_zip]

/-- Claim C2: every retrieval result built by `similarity_search` has
`score = 1 - d` when the store reports distance `d` (the zero-distance
truthiness fallback in the source still yields `1 - 0`), and `score = 1`
when no distance is reported. -/
theorem similarity_search_score_derivation (objects : List WObj)
    (r : RetrievalResult) (hr : r ∈ similarity_search objects) :
    (∀ d : ℚ, r.metadata.distance = some d → r.score = 1 - d) ∧
    (r.metadata.distance = none → r.score = 1) := by
  obtain ⟨item, _, rfl⟩ := List.mem_map.1 hr
  cases hm : item.metadata with
  | none =>
      constructor
      · intro d hd; exact absurd hd (by simp [hm])
      · intro _; simp [hm]
  | some m =>
      cases hd : m.distance with
      | none =>
          constructor
          · intro d hds; exact absurd hds (by simp [hm, hd])
          · intro _; simp [hm, hd]
      | some d0 =>
          constructor
          · intro d hds
            have : d0 = d := by simpa [hm, hd] using hds
            subst this
            by_cases h0 : d0 = 0
            · simp [hm, hd, h0]
            · simp [hm, hd, h0]
          · intro hnone; exact absurd hnone (by simp [hm, hd])

/-- A concrete Weaviate response object with reported distance 1/2. -/
def objW : WObj :=
  { content := some "alpha", filename := some "a.txt", chunk_index := some 0,
    file_type := some ".txt", upload_date := some "2024-01-01",
    metadata := some ⟨some (1/2)⟩ }

/-- The retrieval result `similarity_search` builds from `objW`. -/
def rW : RetrievalResult :=
  (similarity_search [objW]).getD 0 ⟨"", ⟨"", 0, "", "", none⟩, 0⟩

/-- Witness for C2 at a concrete response object with distance 1/2. -/
theorem similarity_search_score_derivation_witness :
    rW.score = 1 - (1/2 : ℚ) :=
  (similarity_search_score_derivation [objW] rW (by
      rw [show similarity_search [objW] = [rW] from rfl]
      exact List.mem_singleton.mpr rfl)).1 (1/2) rfl

/-- Claim C9: `create_embedding(text)` is the batch operation applied to
the singleton list: it returns the first element of
`create_embeddings([text])` whenever that list is non-empty, and propagates
the batch call's failure otherwise. -/
theorem create_embedding_singleton_batch (env : Env) (text : String) :
    (∀ (e : List ℚ) (rest : List (List ℚ)),
       create_embeddings env [text] = .ok (e :: rest) →
       create_embedding env text = .ok e) ∧
    (∀ msg, create_embeddings env [text] = .error msg →
       create_embedding env text = .error msg) := by
  constructor
  · intro e rest h
    simp [create_embedding, h]
  · intro msg h
    simp [create_embedding, h]

/-- Witness for C9: with the all-successful environment, the single-text
call returns the head of the batch result. -/
theorem create_embedding_singleton_batch_witness :
    create_embedding envOk "hi" = .ok [(1 : ℚ)] :=
  (create_embedding_singleton_batch envOk "hi").1 [(1 : ℚ)] [] rfl

lemma countP_error_map_content (fragments : List String) :
    (fragments.map StreamEvent.content).countP (fun e => isErrorEvent e) = 0 := by
  induction fragments with
  | nil => rfl
  | cons f rest ih => simp [List.countP_cons, isErrorEvent, ih]

lemma countP_content_map_content (fragments : List String) :
    (fragments.map StreamEvent.content).countP (fun e => isContentEvent e) =
      fragments.length := by
  induction fragments with
  | nil => rfl
  | cons f rest ih => simp [List.countP_cons, isContentEvent, ih]

/-- Claim C4: the streaming chat body emits exactly one sources event
carrying the raw per-chunk filename list (in retrieval order, not
deduplicated), then one content event per fragment in arrival order, then a
terminal done sentinel; on mid-stream failure a single error event replaces
the remaining fragments, nothing follows it, and no done sentinel is
emitted. -/
theorem chat_stream_event_sequence (relevant_docs : List RetrievalResult)
    (fragments : List String) (msg : String) :
    generate_response relevant_docs (.success fragments) =
      StreamEvent.sources (relevant_docs.map fun doc => doc.metadata.filename) ::
        (fragments.map StreamEvent.content ++ [StreamEvent.done]) ∧
    generate_response relevant_docs (.failure fragments msg) =
      StreamEvent.sources (relevant_docs.map fun doc => doc.metadata.filename) ::
        (fragments.map StreamEvent.content ++ [StreamEvent.error msg]) ∧
    StreamEvent.done ∉ generate_response relevant_docs (.failure fragments msg) ∧
    (generate_response relevant_docs (.failure fragments msg)).countP
      (fun e => isErrorEvent e) = 1 ∧
    (generate_response relevant_docs (.success fragments)).countP
      (fun e => isContentEvent e) = fragments.length ∧
    (generate_response relevant_docs (.success fragments)).countP
      (fun e => isErrorEvent e) = 0 := by
  refine ⟨rfl, rfl, ?_, ?_, ?_, ?_⟩
  · simp [generate_response]
  · simp [generate_response, List.countP_cons, List.countP_append,
      countP_error_map_content, isErrorEvent]
  · simp [generate_response, List.countP_cons, List.countP_append,
      countP_content_map_content, isContentEvent]
  · simp [generate_response, List.countP_cons, List.countP_append,
      countP_error_map_content, isErrorEvent]

/-- Claim C5: with a conversation history longer than 10 messages, the
assembled prompt is exactly the fixed system message, then the last 10
history messages in their original relative order, then the final user
query message; the earlier history entries are dropped. -/
theorem chat_history_truncation (query : String)
    (relevant_docs : List RetrievalResult) (history : List ChatMessage)
    (h : history.length > 10) :
    chat_assemble query relevant_docs history =
      Msg.mk "system" system_prompt ::
        ((history.drop (history.length - 10)).map fun m => Msg.mk m.role m.content) ++
        [Msg.mk "user" (user_prompt query relevant_docs)] ∧
    (history.drop (history.length - 10)).length = 10 ∧
    history.take (history.length - 10) ++ history.drop (history.length - 10) =
      history := by
  have hne : history.isEmpty = false := by
    cases history with
    | nil => simp at h
    | cons a l => rfl
  refine ⟨?_, ?_, List.take_append_drop _ _⟩
  · simp [chat_assemble, hne, create_rag_prompt]
  · rw [List.length_drop]; omega

/-- Fifteen concrete history messages. -/
def histW : List ChatMessage :=
  (List.range 15).map fun i => ⟨"user", toString i, none⟩

/-- Witness for C5 with 15 history messages: only the last 10 are spliced
between the system and user messages. -/
theorem chat_history_truncation_witness :
    histW.length > 10 ∧
    (chat_assemble "q" [] histW =
       Msg.mk "system" system_prompt ::
         ((histW.drop (histW.length - 10)).map fun m => Msg.mk m.role m.content) ++
         [Msg.mk "user" (user_prompt "q" [])] ∧
     (histW.drop (histW.length - 10)).length = 10 ∧
     histW.take (histW.length - 10) ++ histW.drop (histW.length - 10) = histW) :=
  ⟨by decide, chat_history_truncation "q" [] histW (by decide)⟩

/-- Claim C6: `create_rag_prompt` is a pure function returning exactly two
messages: one system message with the fixed RAG instructions, then one user
message embedding, in order, each context chunk's source filename and
content (`contextBlocks`), followed by the verbatim query. -/
theorem create_rag_prompt_two_messages (query : String)
    (context_docs : List RetrievalResult) :
    create_rag_prompt query context_docs =
      [Msg.mk "system" system_prompt,
       Msg.mk "user" ("Context Documents:\n" ++ contextBlocks context_docs ++
         "\n\nUser Question: " ++ query ++
         "\n\nPlease provide a helpful answer based on the context above.")] := by
  unfold create_rag_prompt user_prompt
  rw [context_text_eq_blocks]

lemma ingest_text_content_embed_called (env : Env) (t fn : String) :
    Effect.embedE ((process_text_content env t fn).map fun c => c.page_content) ∈
      (ingest_text_content env t fn).2 := by
  cases h : create_embeddings env
      ((process_text_content env t fn).map fun c => c.page_content) with
  | error e => simp [ingest_text_content, h]
  | ok embeddings => simp [ingest_text_content, h]

/-- The filename default applied by the `/ingest/text` handler
(`request.filename or "text_input"`). -/
def defaultedFilename : Option String → String
  | some f => if f == "" then "text_input" else f
  | none => "text_input"

lemma ingest_text_route_trace (env : Env) (req : IngestRequest)
    (hf : strFalsy req.text_content = false) :
    (ingest_text_route env req).2 =
      (ingest_text_content env (req.text_content.getD "")
        (defaultedFilename req.filename)).2 := by
  simp only [ingest_text_route, hf, Bool.false_eq_true, if_false, defaultedFilename]
  split <;> rfl

/-- Claim C1 (amended): a text-ingestion request whose text content is
absent or the empty string is rejected with the 400 precondition error and
no gateway call is made; but a whitespace-only (non-empty) text content is
NOT caught by the falsiness check — the handler proceeds and the Embedding
Gateway is invoked during its handling. -/
theorem ingest_text_empty_gate (env : Env) (req : IngestRequest) :
    (strFalsy req.text_content = true →
       ingest_text_route env req =
         (.httpErr 400 "Text content is required", [])) ∧
    (∀ t, req.text_content = some t → t ≠ "" →
       ∃ ts, Effect.embedE ts ∈ (ingest_text_route env req).2) := by
  constructor
  · intro h
    simp [ingest_text_route, h]
  · intro t ht hne
    have hf : strFalsy req.text_content = false := by
      simp [strFalsy, ht, hne]
    rw [ingest_text_route_trace env req hf]
    exact ⟨_, ingest_text_content_embed_called env (req.text_content.getD "")
      (defaultedFilename req.filename)⟩

/-- Witness for C1 (amended): the empty request is rejected with no
gateway call, while the two-space request reaches the embedding gateway. -/
theorem ingest_text_empty_gate_witness :
    ingest_text_route env0 ⟨some "", none⟩ =
      (.httpErr 400 "Text content is required", []) ∧
    ∃ ts, Effect.embedE ts ∈ (ingest_text_route env0 ⟨some "  ", none⟩).2 :=
  ⟨(ingest_text_empty_gate env0 ⟨some "", none⟩).1 (by decide),
   (ingest_text_empty_gate env0 ⟨some "  ", none⟩).2 "  " rfl (by decide)⟩

/-- Counterexample to C1 as stated: the whitespace-only request
`{"text_content": "  "}` is not rejected with a precondition error (the
handler returns a 500 from the failed pipeline, not the 400 precondition
rejection), and a call does reach the Embedding Gateway. -/
theorem ingest_text_whitespace_cx :
    statusOf (ingest_text_route env0 ⟨some "  ", none⟩).1 = 500 ∧
    statusOf (ingest_text_route env0 ⟨some "  ", none⟩).1 ≠ 400 ∧
    (ingest_text_route env0 ⟨some "  ", none⟩).2 = [Effect.embedE ["  "]] ∧
    (ingest_text_route env0 ⟨some "  ", none⟩).2 ≠ [] := by
  decide

/-- Claim C3 (amended): a file whose (lower-cased) extension is outside the
configured allow-list `[".pdf", ".txt", ".md", ".docx"]` is rejected with a
400 precondition error before any I/O or gateway call; but `.docx` — which
no loader supports — passes that check: the upload is read and written to a
temporary file, and ingestion then fails with a 500 during loader
selection (still without any loader, embedding, or storage call). -/
theorem ingest_file_extension_gate (env : Env) (file : UploadedFile) :
    (pyLower (splitextExt file.filename) ∉ allowed_file_types →
       ingest_file_route env file =
         (.httpErr 400 ("File type " ++ pyLower (splitextExt file.filename) ++
            " not supported. Allowed types: [.pdf, .txt, .md, .docx]"), [])) ∧
    (pyLower (splitextExt file.filename) = ".docx" →
       file.content.length ≤ max_file_size →
       statusOf (ingest_file_route env file).1 = 500 ∧
       (ingest_file_route env file).2 =
         [Effect.fileReadE file.content.length, Effect.tempWriteE]) := by
  constructor
  · intro h
    simp [ingest_file_route, h]
  · intro hx hsz
    have hmem : pyLower (splitextExt file.filename) ∈ allowed_file_types := by
      rw [hx]; simp [allowed_file_types]
    have hload : load_document env env.tempPath (splitextExt file.filename) =
        (Except.error ("Unsupported file type: " ++ splitextExt file.filename),
         []) := by
      simp [load_document, hx]
    have hdoc : (ingest_document env env.tempPath file.filename).1.success =
          false ∧
        (ingest_document env env.tempPath file.filename).2 = [] := by
      constructor <;> simp [ingest_document, hload]
    have hnot : ¬ file.content.length > max_file_size := by omega
    constructor
    · simp [ingest_file_route, hmem, hnot, hdoc.1, statusOf]
    · simp [ingest_file_route, hmem, hnot, hdoc.1, hdoc.2]

/-- Witness for C3 (amended): an `.xyz` file is rejected up front with no
effects; a small `.docx` file is read and written to the temp file, then
fails with a 500. -/
theorem ingest_file_extension_gate_witness :
    ingest_file_route env0 ⟨"a.xyz", "hi"⟩ =
      (.httpErr 400 ("File type " ++ pyLower (splitextExt "a.xyz") ++
         " not supported. Allowed types: [.pdf, .txt, .md, .docx]"), []) ∧
    (statusOf (ingest_file_route env0 ⟨"a.docx", "hi"⟩).1 = 500 ∧
     (ingest_file_route env0 ⟨"a.docx", "hi"⟩).2 =
       [Effect.fileReadE ("hi".length), Effect.tempWriteE]) :=
  ⟨(ingest_file_extension_gate env0 ⟨"a.xyz", "hi"⟩).1 (by decide),
   (ingest_file_extension_gate env0 ⟨"a.docx", "hi"⟩).2 (by decide) (by decide)⟩

/-- Counterexample to C3 as stated: `a.docx` has no supported loader (PDF,
Markdown, plain text), yet it is not rejected before I/O: the upload is
read and a temporary file is written, and the eventual rejection is a 500
pipeline failure, not a precondition error. -/
theorem ingest_file_docx_cx :
    statusOf (ingest_file_route env0 ⟨"a.docx", "hi"⟩).1 = 500 ∧
    statusOf (ingest_file_route env0 ⟨"a.docx", "hi"⟩).1 ≠ 400 ∧
    (ingest_file_route env0 ⟨"a.docx", "hi"⟩).2 =
      [Effect.fileReadE 2, Effect.tempWriteE] ∧
    (ingest_file_route env0 ⟨"a.docx", "hi"⟩).2 ≠ [] := by
  decide

/-- Claim C7 (amended): a successful raw-text ingestion reports the success
flag, the fixed human-readable message, the chunk count, and the generated
identifier list — but no file size: the `file_size` key is absent from the
raw-text result (it is not reported as 0). -/
theorem ingest_text_success_report (env : Env) (t fn : String)
    (h : (ingest_text_content env t fn).1.success = true) :
    (ingest_text_content env t fn).1.message =
      "Successfully ingested text content" ∧
    (ingest_text_content env t fn).1.chunks_created =
      (process_text_content env t fn).length ∧
    (∃ ids, (ingest_text_content env t fn).1.document_ids = some ids) ∧
    (ingest_text_content env t fn).1.file_size = none := by
  cases hc : create_embeddings env
      ((process_text_content env t fn).map fun c => c.page_content) with
  | error e =>
      exact absurd h (by simp [ingest_text_content, hc])
  | ok embeddings =>
      refine ⟨?_, ?_, ?_, ?_⟩
      · simp [ingest_text_content, hc]
      · simp [ingest_text_content, hc]
      · exact ⟨(add_documents
            (((process_text_content env t fn).zip embeddings).enum.map fun p =>
              mkWeaviateDoc p.2.1.page_content fn p.1 ".txt" env.now)
            embeddings env.store).1, by simp [ingest_text_content, hc]⟩
      · simp [ingest_text_content, hc]

/-- Witness for C7 (amended) at a concrete successful ingestion. -/
theorem ingest_text_success_report_witness :
    (ingest_text_content envOk "hello" "notes.txt").1.message =
      "Successfully ingested text content" ∧
    (ingest_text_content envOk "hello" "notes.txt").1.chunks_created =
      (process_text_content envOk "hello" "notes.txt").length ∧
    (∃ ids, (ingest_text_content envOk "hello" "notes.txt").1.document_ids =
      some ids) ∧
    (ingest_text_content envOk "hello" "notes.txt").1.file_size = none :=
  ingest_text_success_report envOk "hello" "notes.txt" (by decide)

/-- Counterexample to C7 as stated: a successful raw-text ingestion whose
result carries no file-size field at all — in particular it does not report
a file size of 0. -/
theorem ingest_text_no_file_size_cx :
    (ingest_text_content envOk "hello" "notes.txt").1.success = true ∧
    (ingest_text_content envOk "hello" "notes.txt").1.file_size = none ∧
    (ingest_text_content envOk "hello" "notes.txt").1.file_size ≠ some 0 := by
  decide

end RAG
